import Mathlib

/-!
Verification development for the LoanLens conversational loan-origination
backend (src/main.py, src/schemas.py).  The conversation engine is embedded
shallowly: Python strings become lists of characters, MongoDB session
documents become a Lean structure, and each HTTP operation becomes a pure
function from the fetched session (plus the event payload) to the final
persisted session and reply.  A Python exception escaping an operation after
some writes have been applied is modelled by the ChatResult.raised
constructor carrying the session state at the point of the exception.
-/

namespace LoanLens

/-! ### Python string primitives -/

/-- Lowercase every character, modelling Python str.lower (the inputs at
issue are ASCII, where Char.toLower agrees with Python). -/
def lowerL (l : List Char) : List Char := l.map Char.toLower

/-- Split a list at the first occurrence of the separator, modelling
Python text.split(sep, 1): some (before, after) when the separator occurs,
none otherwise (in which case indexing [1] raises in Python). -/
def splitFirst (sep : List Char) : List Char → Option (List Char × List Char)
  | [] => none
  | c :: cs =>
    if sep.isPrefixOf (c :: cs) then some ([], (c :: cs).drop sep.length)
    else
      match splitFirst sep cs with
      | some (pre, post) => some (c :: pre, post)
      | none => none

/-- Substring containment, modelling the Python expression sep in hay. -/
def containsSub (hay pat : List Char) : Bool := (splitFirst pat hay).isSome

/-- Remove leading and trailing whitespace, modelling Python str.strip(). -/
def pyStrip (l : List Char) : List Char :=
  ((l.dropWhile Char.isWhitespace).reverse.dropWhile Char.isWhitespace).reverse

/-- Accumulator-based worker for pyWords. -/
def pyWordsAux : List Char → List Char → List (List Char)
  | acc, [] => if acc.isEmpty then [] else [acc.reverse]
  | acc, c :: cs =>
    if c.isWhitespace then
      if acc.isEmpty then pyWordsAux [] cs else acc.reverse :: pyWordsAux [] cs
    else pyWordsAux (c :: acc) cs

/-- Split on whitespace runs, dropping empty pieces, modelling Python
str.split() with no argument. -/
def pyWords (l : List Char) : List (List Char) := pyWordsAux [] l

/-- Join word lists with single spaces, modelling " ".join(ws). -/
def joinSpace : List (List Char) → List Char
  | [] => []
  | [w] => w
  | w :: ws => w ++ ' ' :: joinSpace ws

/-- Worker for pyTitle; the flag records whether the previous character was
alphabetic. -/
def pyTitleAux : Bool → List Char → List Char
  | _, [] => []
  | prevAlpha, c :: cs =>
    (if c.isAlpha then (if prevAlpha then c.toLower else c.toUpper) else c) ::
      pyTitleAux c.isAlpha cs

/-- Title-case, modelling Python str.title() on ASCII text: an alphabetic
character is uppercased after a non-alphabetic character and lowercased
otherwise. -/
def pyTitle (l : List Char) : List Char := pyTitleAux false l

/-- First maximal run of decimal digits in the text, if any; this is the
first match of the regular expression for one or more digits. -/
def firstDigitRun : List Char → Option (List Char)
  | [] => none
  | c :: cs =>
    if c.isDigit then some (c :: cs.takeWhile Char.isDigit) else firstDigitRun cs

/-- Decimal value of a digit run. -/
def digitsToNat (ds : List Char) : Nat :=
  ds.foldl (fun n c => n * 10 + (c.toNat - 48)) 0

/-- Embeds parse_int (src/main.py lines 108-116): strip commas, take the
first run of digits, and read it as a nonnegative integer; none when the
text has no digit. -/
def parse_int (t : List Char) : Option Nat :=
  (firstDigitRun (t.filter fun c => c != ',')).map digitsToNat

/-- Insert a comma after every three characters of the reversed digit
string; worker for numComma. -/
def group3 : List Char → List Char
  | a :: b :: c :: d :: rest => a :: b :: c :: ',' :: group3 (d :: rest)
  | l => l

/-- Render a nonnegative integer with thousands separators, modelling the
Python format specifier for grouped integers. -/
def numComma (n : Nat) : String := String.mk ((group3 (toString n).data.reverse).reverse)

/-! ### Data model (src/schemas.py Session, src/main.py documents) -/

/-- Conversation stages; the session schema documents exactly these five. -/
inductive Stage where
  | intro
  | verification
  | underwriting
  | sanction
  | complete
deriving DecidableEq, Repr

/-- Position of a stage in the documented forward order. -/
def stageIdx : Stage → Nat
  | Stage.intro => 0
  | Stage.verification => 1
  | Stage.underwriting => 2
  | Stage.sanction => 3
  | Stage.complete => 4

/-- Chat transcript record (role and content; timestamps are wall-clock
values irrelevant to the claims). -/
structure Msg where
  role : String
  content : String
deriving DecidableEq, Repr

/-- KYC record set by the upload endpoint. -/
structure Kyc where
  pan : String
  aadhaar : String
  verified : Bool
deriving DecidableEq, Repr

/-- Offer document; every field is optional because the Python side is a
dict that starts empty and is populated by the underwriting branch and the
letter writes.  The rate field holds the exact value of the Python float
(14.0 and 16.0 are integers, represented exactly). -/
structure Offer where
  requested : Option Nat
  approved : Option Nat
  rate : Option ℚ
  tenure_months : Option Nat
  processing_fee : Option Nat
  status : Option String
  letter : Option String
deriving DecidableEq, Repr

/-- The empty offer dict. -/
def Offer.emptyO : Offer := ⟨none, none, none, none, none, none, none⟩

/-- Truthiness test of the offer dict: the dict is empty exactly when no
field has ever been written. -/
def Offer.isEmptyO (o : Offer) : Bool := o = Offer.emptyO

/-- Session document (src/schemas.py Session). -/
structure Session where
  stage : Stage
  customer_name : Option String
  monthly_income : Option Nat
  requested_amount : Option Nat
  kyc : Option Kyc
  offer : Offer
  messages : List Msg
deriving DecidableEq, Repr

/-- Fresh session as created by SessionSchema(): stage intro, no fields. -/
def Session.fresh : Session :=
  ⟨Stage.intro, none, none, none, none, Offer.emptyO, []⟩

/-! ### Reply strings (verbatim from src/main.py) -/

/-- ASCII apostrophe character. -/
def apos : Char := Char.ofNat 39

/-- ASCII apostrophe as a one-character string. -/
def aposS : String := String.mk [apos]

def replyKyc : String :=
  "Great. To proceed, please upload your KYC: PAN and Aadhaar. You can upload images (JPG/PNG) or PDF."

def replyAskAgain : String :=
  "Got it. Please share your full name and the loan amount you need (e.g., 500000)."

def replyAwaitKyc : String :=
  "Awaiting KYC documents. Upload PAN and Aadhaar to continue."

def replyApproved (n : Nat) : String :=
  "You" ++ aposS ++ "re eligible. Approved amount: ₹" ++ numComma n ++
    ". Shall I generate your sanction letter?"

def replyRejected : String :=
  "Based on your income, we can’t approve the requested amount at this time."

def replyAskIncome : String :=
  "Please share your monthly income (e.g., 30000)."

def replyLetterDone : String :=
  "Sanction letter generated. You can download it now."

def replySayYes : String :=
  "Say " ++ aposS ++ "yes" ++ aposS ++ " to generate your sanction letter."

def replyComplete : String :=
  "Your application is complete. How else can I help today?"

def replyKycVerified : String :=
  "KYC verified successfully. What’s your monthly income?"

/-! ### Offer letter generator (src/main.py lines 265-278) -/

/-- Render the stored rate the way the Python f-string does: the float 14.0
prints as 14.0, and a missing rate falls back to the integer default 0. -/
def showRate : Option ℚ → String
  | none => "0"
  | some q => if q.den = 1 then toString q.num ++ ".0" else toString q

/-- Embeds generate_offer_letter.  The current UTC date is passed in as the
string it prints as, since the embedding is pure. -/
def generate_offer_letter (today : String) (name : String) (offer : Offer) : String :=
  if offer.isEmptyO then "No offer available."
  else
    "LoanLens AI – Sanction Letter\n\n" ++
    "Date: " ++ today ++ "\n" ++
    "To, " ++ name ++ "\n\n" ++
    "We are pleased to sanction a personal loan with the following terms:\n" ++
    "Approved Amount: ₹" ++ numComma (offer.approved.getD 0) ++ "\n" ++
    "Interest Rate: " ++ showRate offer.rate ++ "% p.a.\n" ++
    "Tenure: " ++ toString (offer.tenure_months.getD 0) ++ " months\n" ++
    "Processing Fee: ₹" ++ numComma (offer.processing_fee.getD 0) ++ "\n\n" ++
    "This is a system-generated letter and does not require a signature.\n"

/-! ### Conversation engine (src/main.py chat_send and friends) -/

/-- Python or-default on an optional integer: falls through to the default
both when the field is absent and when it is 0, because 0 is falsy. -/
def pyOrNat (o : Option Nat) (d : Nat) : Nat :=
  match o with
  | some n => if n = 0 then d else n
  | none => d

/-- Embeds the offer computation of the underwriting branch (src/main.py
lines 176-187).  The Python fee expression int(approved * 0.01) equals
approved / 100 in natural division for every approved value up to 500000
(the double product never crosses an integer boundary in that range), so it
is embedded as natural division. -/
def computeOffer (income : Nat) (requested_amount : Option Nat) : Offer :=
  let max_amount := min (income * 20) 500000
  let requested := pyOrNat requested_amount max_amount
  let approved := min requested max_amount
  let status := if income ≥ 25000 ∧ approved > 0 then "approved" else "rejected"
  { requested := some requested
    approved := some approved
    rate := some (if approved ≥ 300000 then (14 : ℚ) else 16)
    tenure_months := some (if approved ≥ 300000 then 48 else 36)
    processing_fee := some (max 1999 (approved / 100))
    status := some status
    letter := none }

/-- The keyword pattern for the contraction of I am, written with an
explicit apostrophe character. -/
def imPat : List Char := ['i', apos, 'm']

/-- Embeds the name extraction of the intro branch (src/main.py lines
143-149): membership is tested on the lowercased text, but the split is on
the original text with a case-sensitive separator, and the separator of the
first branch is the two-character fragment of name is.  When the separator
does not occur in the original text, Python indexing [1] raises; that is the
error case. -/
def extractNameRaw (text : List Char) : Except Unit (Option (List Char)) :=
  let tl := lowerL text
  if containsSub tl "name is".data then
    match splitFirst "is".data text with
    | some (_, rest) => Except.ok (some (pyStrip rest))
    | none => Except.error ()
  else if containsSub tl "i am".data then
    match splitFirst "i am".data text with
    | some (_, rest) => Except.ok (some (pyStrip rest))
    | none => Except.error ()
  else if containsSub tl imPat then
    match splitFirst imPat text with
    | some (_, rest) => Except.ok (some (pyStrip rest))
    | none => Except.error ()
  else Except.ok none

/-- Embeds the customer_name post-processing: join of the first three
whitespace words, title-cased. -/
def procName (raw : List Char) : List Char :=
  pyTitle (joinSpace ((pyWords raw).take 3))

/-- Embeds the sanction-stage confirmation test: the lowercased text
contains one of the five keyword substrings. -/
def sanctionKeywordHit (text : List Char) : Bool :=
  ["yes".data, "ok".data, "proceed".data, "generate".data, "sure".data].any
    fun k => containsSub (lowerL text) k

/-- Result of one chat_send call: ok carries the final persisted session and
the reply; raised carries the persisted session at the point where a Python
exception escaped (the user message is already pushed there). -/
inductive ChatResult where
  | ok (s : Session) (reply : String) : ChatResult
  | raised (s : Session) : ChatResult
deriving DecidableEq, Repr

/-- Push the assistant reply and return the ok result; every non-raising
branch of chat_send ends this way. -/
def finish (s : Session) (reply : String) : ChatResult :=
  ChatResult.ok { s with messages := s.messages ++ [⟨"assistant", reply⟩] } reply

/-- Session component of a chat result. -/
def resultSession : ChatResult → Session
  | ChatResult.ok s _ => s
  | ChatResult.raised s => s

/-- Stage of the session component of a chat result. -/
def resultStage (r : ChatResult) : Stage := (resultSession r).stage

/-- True exactly on the ok constructor. -/
def resultOk : ChatResult → Bool
  | ChatResult.ok _ _ => true
  | ChatResult.raised _ => false

/-- Embeds chat_send (src/main.py lines 119-217) on a session in a defined
stage: push the user message, strip the text, dispatch on the stage, apply
the field updates of the branch, and push the computed reply.  The current
UTC date string is a parameter (used only by the sanction branch for letter
generation). -/
def chat_send (today : String) (session : Session) (message : String) : ChatResult :=
  let s0 : Session := { session with messages := session.messages ++ [⟨"user", message⟩] }
  let text : List Char := pyStrip message.data
  match session.stage with
  | Stage.intro =>
    let amt := parse_int text
    match extractNameRaw text with
    | Except.error _ => ChatResult.raised s0
    | Except.ok rawName =>
      let nameVal : Option (List Char) :=
        match rawName with
        | some n => if n.isEmpty then none else some n
        | none => none
      let amtVal : Option Nat :=
        match amt with
        | some a => if a = 0 then none else some a
        | none => none
      let s1 : Session :=
        match nameVal with
        | some n => { s0 with customer_name := some (String.mk (procName n)) }
        | none => s0
      let s2 : Session :=
        match amtVal with
        | some a => { s1 with requested_amount := some a }
        | none => s1
      if nameVal.isSome || amtVal.isSome then
        finish { s2 with stage := Stage.verification } replyKyc
      else finish s2 replyAskAgain
  | Stage.verification => finish s0 replyAwaitKyc
  | Stage.underwriting =>
    match parse_int text with
    | some income =>
      if income = 0 then finish s0 replyAskIncome
      else
        let o := computeOffer income session.requested_amount
        let s1 : Session :=
          { s0 with monthly_income := some income, offer := o, stage := Stage.sanction }
        if o.status = some "approved" then finish s1 (replyApproved (o.approved.getD 0))
        else finish s1 replyRejected
    | none => finish s0 replyAskIncome
  | Stage.sanction =>
    if sanctionKeywordHit text then
      let name := session.customer_name.getD "Customer"
      let letter := generate_offer_letter today name session.offer
      finish
        { s0 with offer := { session.offer with letter := some letter },
                  stage := Stage.complete }
        replyLetterDone
    else finish s0 replySayYes
  | Stage.complete => finish s0 replyComplete

/-- Embeds the verification_upload endpoint (src/main.py lines 220-247)
after the file validation has passed: sets the kyc record and the stage
unconditionally (no check of the current stage), then pushes the assistant
message. -/
def verification_upload (s : Session) (panName aadhaarName : String) : Session × Msg :=
  let msg : Msg := ⟨"assistant", replyKycVerified⟩
  ({ s with kyc := some ⟨panName, aadhaarName, true⟩,
            stage := Stage.underwriting,
            messages := s.messages ++ [msg] }, msg)

/-- Embeds the generate_sanction endpoint (src/main.py lines 250-260):
renders the letter from the current offer, stores it and sets the stage to
complete unconditionally, appending no message. -/
def generate_sanction (today : String) (s : Session) : Session × String :=
  let letter := generate_offer_letter today (s.customer_name.getD "Customer") s.offer
  ({ s with offer := { s.offer with letter := some letter }, stage := Stage.complete },
   letter)

/-! ### Shared lemmas -/

/-- A list passes the Boolean prefix test against itself followed by any
tail. -/
theorem isPrefixOf_append_self : ∀ (l t : List Char), l.isPrefixOf (l ++ t) = true
  | [], _ => by simp [List.isPrefixOf]
  | c :: cs, t => by simp [List.isPrefixOf, isPrefixOf_append_self cs t]

/-- The substring test succeeds whenever the pattern occurs contiguously in
a nonempty haystack. -/
theorem containsSub_of_append (p : List Char) :
    ∀ xs ys : List Char, xs ++ p ++ ys ≠ [] → containsSub (xs ++ p ++ ys) p = true := by
  intro xs
  induction xs with
  | nil =>
    intro ys hne
    rw [List.nil_append] at hne ⊢
    cases p with
    | nil =>
      cases ys with
      | nil => simp at hne
      | cons y ys2 => simp [containsSub, splitFirst, List.isPrefixOf]
    | cons a as =>
      have hpre := isPrefixOf_append_self (a :: as) ys
      simp only [List.cons_append] at hpre ⊢
      simp [containsSub, splitFirst, hpre]
  | cons x xs2 ih =>
    intro ys _
    have hcons : (x :: xs2) ++ p ++ ys = x :: (xs2 ++ p ++ ys) := by
      simp only [List.cons_append]
    rw [hcons]
    unfold containsSub
    simp only [splitFirst]
    split
    next hcond => simp
    next hcond =>
      have hrest : xs2 ++ p ++ ys ≠ [] := by
        intro h0
        have hp0 : p = [] := (List.append_eq_nil.mp (List.append_eq_nil.mp h0).1).2
        rw [h0, hp0] at hcond
        simp [List.isPrefixOf] at hcond
      have hih := ih ys hrest
      unfold containsSub at hih
      cases hsp : splitFirst p (xs2 ++ p ++ ys) with
      | some pp => cases pp with | mk pre post => simp
      | none => rw [hsp] at hih; simp at hih

/-- Shape of a successful underwriting turn: the income is stored, the
offer is the computed one, the stage advances to sanction, and one user and
one assistant message are appended. -/
theorem chat_send_underwriting_shape (today : String) (s : Session) (t : String)
    (income : Nat) (hs : s.stage = Stage.underwriting)
    (hp : parse_int (pyStrip t.data) = some income) (hne : income ≠ 0) :
    ∃ reply, chat_send today s t = ChatResult.ok
      { s with monthly_income := some income,
               offer := computeOffer income s.requested_amount,
               stage := Stage.sanction,
               messages := s.messages ++ [⟨"user", t⟩, ⟨"assistant", reply⟩] } reply := by
  obtain ⟨st, cn, mi, ra, ky, off, ms⟩ := s
  simp only at hs
  subst hs
  simp only [chat_send, hp, hne, if_false, finish]
  split
  · refine ⟨replyApproved ((computeOffer income ra).approved.getD 0), ?_⟩
    simp
  · refine ⟨replyRejected, ?_⟩
    simp

/-! ### Claim C1 -/

/-- Claim C1: the spec states that chat_send never raises on a well-formed
text event, and that in stage intro name extraction completes without error
for any text whose lowercasing contains one of the name keywords.  The code
violates this: the membership test is on the lowercased text but the split
is case-sensitive, so the text MY NAME IS JANE (whose lowercasing contains
the fragment name is) makes the Python indexing [1] raise IndexError after
only the user message has been pushed.  This theorem evaluates the embedded
operation at that failing input. -/
theorem C1_intro_name_extraction_raises :
    chat_send "2024-01-01" Session.fresh "MY NAME IS JANE" =
      ChatResult.raised
        ⟨Stage.intro, none, none, none, none, Offer.emptyO,
         [⟨"user", "MY NAME IS JANE"⟩]⟩ := by
  decide

/-! ### Claim C2 -/

/-- Claim C2 counterexample: the KYC-upload operation on a session in stage
complete sets the stage to underwriting, an earlier stage, so the claim
that no operation ever moves the stage backward is false. -/
theorem C2_backward_stage_counterexample :
    (verification_upload
        ⟨Stage.complete, none, none, none, none, Offer.emptyO, []⟩
        "pan.jpg" "aadhaar.jpg").1.stage = Stage.underwriting ∧
    stageIdx Stage.underwriting < stageIdx Stage.complete := by
  decide

/-- Claim C2 amended: chat_send never moves the stage backward and sanction
generation always sets the final stage complete, but the KYC-upload
operation sets the stage to underwriting regardless of the current stage,
which moves sanction or complete sessions backward. -/
theorem C2_stage_monotonicity_amended :
    (∀ today s t, stageIdx s.stage ≤ stageIdx (resultStage (chat_send today s t))) ∧
    (∀ today s, (generate_sanction today s).1.stage = Stage.complete) ∧
    (∀ s p a, (verification_upload s p a).1.stage = Stage.underwriting) := by
  refine ⟨?_, fun today s => rfl, fun s p a => rfl⟩
  intro today s t
  obtain ⟨st, cn, mi, ra, ky, off, ms⟩ := s
  cases st with
  | intro => exact Nat.zero_le _
  | verification => simp [chat_send, finish, resultStage, resultSession, stageIdx]
  | underwriting =>
    simp only [chat_send]
    split
    · split
      · simp [finish, resultStage, resultSession, stageIdx]
      · split <;> simp [finish, resultStage, resultSession, stageIdx]
    · simp [finish, resultStage, resultSession, stageIdx]
  | sanction =>
    simp only [chat_send]
    split <;> simp [finish, resultStage, resultSession, stageIdx]
  | complete => simp [chat_send, finish, resultStage, resultSession, stageIdx]

/-! ### Claim C10 -/

/-- Claim C10: a message whose first digit run parses to 0 is treated as if
no number were present, because 0 is falsy in Python.  In stage intro
(absent any name-keyword match) nothing is set and no transition happens;
in stage underwriting no income is stored and no offer is computed, the
reply asking for the income again. -/
theorem C10_zero_parse_ignored :
    (∀ today (s : Session) t, s.stage = Stage.intro →
        parse_int (pyStrip (String.data t)) = some 0 →
        containsSub (lowerL (pyStrip (String.data t))) "name is".data = false →
        containsSub (lowerL (pyStrip (String.data t))) "i am".data = false →
        containsSub (lowerL (pyStrip (String.data t))) imPat = false →
        chat_send today s t = ChatResult.ok
          { s with messages := s.messages ++ [⟨"user", t⟩, ⟨"assistant", replyAskAgain⟩] }
          replyAskAgain) ∧
    (∀ today (s : Session) t, s.stage = Stage.underwriting →
        parse_int (pyStrip (String.data t)) = some 0 →
        chat_send today s t = ChatResult.ok
          { s with messages := s.messages ++ [⟨"user", t⟩, ⟨"assistant", replyAskIncome⟩] }
          replyAskIncome) := by
  constructor
  · intro today s t hs hp h1 h2 h3
    obtain ⟨st, cn, mi, ra, ky, off, ms⟩ := s
    simp only at hs
    subst hs
    have hex : extractNameRaw (pyStrip (String.data t)) = Except.ok none := by
      unfold extractNameRaw
      simp [h1, h2, h3]
    simp [chat_send, hp, hex, finish]
  · intro today s t hs hp
    obtain ⟨st, cn, mi, ra, ky, off, ms⟩ := s
    simp only at hs
    subst hs
    simp [chat_send, hp, finish]

/-- Claim C10 witness: the message 0 at a fresh intro session and at an
underwriting session concretely takes the no-number path. -/
theorem C10_zero_parse_ignored_witness :
    chat_send "2024-01-01" Session.fresh "0" = ChatResult.ok
      { Session.fresh with
          messages := [⟨"user", "0"⟩, ⟨"assistant", replyAskAgain⟩] } replyAskAgain ∧
    chat_send "2024-01-01" ⟨Stage.underwriting, none, none, none, none, Offer.emptyO, []⟩ "0"
      = ChatResult.ok
          ⟨Stage.underwriting, none, none, none, none, Offer.emptyO,
           [⟨"user", "0"⟩, ⟨"assistant", replyAskIncome⟩]⟩ replyAskIncome := by
  constructor
  · have h := C10_zero_parse_ignored.1 "2024-01-01" Session.fresh "0" rfl
      (by decide) (by decide) (by decide) (by decide)
    simpa using h
  · have h := C10_zero_parse_ignored.2 "2024-01-01"
      ⟨Stage.underwriting, none, none, none, none, Offer.emptyO, []⟩ "0" rfl (by decide)
    simpa using h

/-! ### Claim C3 -/

/-- Claim C3 counterexample: on a session whose requested_amount is set to
0, the claim predicts requested = 0 (the field is set), hence approved = 0
and rejection; the code uses a Python or-expression, treats the stored 0 as
unset, and falls back to max_amount, producing requested 500000 with
status approved. -/
theorem C3_requested_zero_counterexample :
    (resultSession (chat_send "2024-01-01"
        ⟨Stage.underwriting, none, none, some 0, none, Offer.emptyO, []⟩
        "30000")).offer.requested = some 500000 ∧
    (resultSession (chat_send "2024-01-01"
        ⟨Stage.underwriting, none, none, some 0, none, Offer.emptyO, []⟩
        "30000")).offer.status = some "approved" ∧
    (some 500000 ≠ (some 0 : Option Nat)) := by
  decide

/-- Claim C3 amended: for every underwriting session and text whose first
digit run parses to a positive income, the turn stores the income, stores
an offer with max_amount = min(income * 20, 500000), requested equal to
requested_amount when that field is set to a nonzero value and max_amount
otherwise (the code treats a stored 0 as unset), approved =
min(requested, max_amount), status approved exactly when income >= 25000
and approved > 0 and rejected otherwise, and the stage becomes sanction
unconditionally, even on rejection. -/
theorem C3_underwriting_offer_amended :
    ∀ today (s : Session) t income, s.stage = Stage.underwriting →
      parse_int (pyStrip (String.data t)) = some income → income ≠ 0 →
      ∃ s1 reply, chat_send today s t = ChatResult.ok s1 reply ∧
        s1.monthly_income = some income ∧
        s1.stage = Stage.sanction ∧
        s1.offer.requested = some (match s.requested_amount with
          | some ra => if ra = 0 then min (income * 20) 500000 else ra
          | none => min (income * 20) 500000) ∧
        s1.offer.approved = some (min (match s.requested_amount with
          | some ra => if ra = 0 then min (income * 20) 500000 else ra
          | none => min (income * 20) 500000) (min (income * 20) 500000)) ∧
        ((s1.offer.status = some "approved") ↔
          (25000 ≤ income ∧ 0 < (min (match s.requested_amount with
            | some ra => if ra = 0 then min (income * 20) 500000 else ra
            | none => min (income * 20) 500000) (min (income * 20) 500000)))) ∧
        (s1.offer.status = some "approved" ∨ s1.offer.status = some "rejected") := by
  intro today s t income hs hp hne
  obtain ⟨reply, heq⟩ := chat_send_underwriting_shape today s t income hs hp hne
  refine ⟨_, reply, heq, rfl, rfl, ?_, ?_, ?_, ?_⟩
  · simp only [computeOffer, pyOrNat]
  · simp only [computeOffer, pyOrNat]
  · simp only [computeOffer, pyOrNat]
    split
    next h => exact iff_of_true rfl h
    next h => exact iff_of_false (by simp) h
  · simp only [computeOffer]
    split <;> simp

/-- Claim C3 amended witness: income 30000 at a plain underwriting session
concretely yields the capped approved amount 500000 and approval. -/
theorem C3_underwriting_offer_amended_witness :
    ∃ s1 reply, chat_send "2024-01-01"
        ⟨Stage.underwriting, none, none, none, none, Offer.emptyO, []⟩ "30000"
        = ChatResult.ok s1 reply ∧
      s1.monthly_income = some 30000 ∧ s1.stage = Stage.sanction ∧
      s1.offer.requested = some 500000 ∧ s1.offer.approved = some 500000 ∧
      s1.offer.status = some "approved" := by
  obtain ⟨s1, reply, h1, h2, h3, h4, h5, h6, _⟩ :=
    C3_underwriting_offer_amended "2024-01-01"
      ⟨Stage.underwriting, none, none, none, none, Offer.emptyO, []⟩ "30000" 30000
      rfl (by decide) (by decide)
  exact ⟨s1, reply, h1, h2, h3, h4, h5, h6.mpr (by decide)⟩

/-! ### Claim C4 -/

/-- Claim C4 counterexample: the claim says the name is the text following
the first match of the keyword substring itself, which for the input
his name is Bob would be Bob; the code instead splits at the first
occurrence of the two-character fragment inside the word his, storing
Name Is Bob. -/
theorem C4_split_fragment_counterexample :
    (resultSession (chat_send "2024-01-01" Session.fresh "his name is Bob")).customer_name
      = some "Name Is Bob" ∧
    ("Name Is Bob" : String) ≠ "Bob" := by
  decide

/-- Claim C4 amended: in stage intro, when the lowercased text contains the
keyword substring name is, the split point is the first case-sensitive
occurrence of the two-character fragment of the verb in the original
stripped text (not of the full keyword); the remainder is stripped, and if
nonempty it is whitespace-collapsed, truncated to three words, title-cased,
stored as customer_name, and the stage becomes verification.  Since only
containment of name is in the lowercased text is required, this branch
wins even when the text also matches i am, which is checked later. -/
theorem C4_intro_name_amended :
    ∀ today (s : Session) t, s.stage = Stage.intro →
      containsSub (lowerL (pyStrip (String.data t))) "name is".data = true →
      ∀ pre rest, splitFirst "is".data (pyStrip (String.data t)) = some (pre, rest) →
      pyStrip rest ≠ [] →
      ∃ s1, chat_send today s t = ChatResult.ok s1 replyKyc ∧
        s1.customer_name =
          some (String.mk (pyTitle (joinSpace ((pyWords (pyStrip rest)).take 3)))) ∧
        s1.stage = Stage.verification := by
  intro today s t hs hcont pre rest hsplit hne
  obtain ⟨st, cn, mi, ra, ky, off, ms⟩ := s
  simp only at hs
  subst hs
  have hex : extractNameRaw (pyStrip (String.data t)) = Except.ok (some (pyStrip rest)) := by
    unfold extractNameRaw
    simp [hcont, hsplit]
  have hni : (pyStrip rest).isEmpty = false := by
    cases hr : pyStrip rest with
    | nil => exact absurd hr hne
    | cons c cs => rfl
  cases hamt : parse_int (pyStrip (String.data t)) with
  | none =>
    simp only [chat_send, hamt, hex, hni, procName, Bool.false_eq_true, if_false,
      Option.isSome_some, Option.isSome_none, Bool.true_or, if_true, finish]
    exact ⟨_, rfl, rfl, rfl⟩
  | some a =>
    by_cases ha : a = 0
    · subst ha
      simp only [chat_send, hamt, hex, hni, procName, Bool.false_eq_true, if_false,
        Option.isSome_some, Option.isSome_none, Bool.true_or, if_true, if_pos, finish]
      exact ⟨_, rfl, rfl, rfl⟩
    · simp only [chat_send, hamt, hex, hni, procName, Bool.false_eq_true, if_false,
        Option.isSome_some, Option.isSome_none, Bool.true_or, if_true, ha, finish]
      exact ⟨_, rfl, rfl, rfl⟩

/-- Claim C4 amended witness: the input my name is Jane Doe at a fresh
session stores the customer name Jane Doe and advances to verification. -/
theorem C4_intro_name_amended_witness :
    ∃ s1, chat_send "2024-01-01" Session.fresh "my name is Jane Doe"
        = ChatResult.ok s1 replyKyc ∧
      s1.customer_name = some "Jane Doe" ∧
      s1.stage = Stage.verification := by
  obtain ⟨s1, h1, h2, h3⟩ :=
    C4_intro_name_amended "2024-01-01" Session.fresh "my name is Jane Doe" rfl (by decide)
      "my name ".data " Jane Doe".data (by decide) (by decide)
  refine ⟨s1, h1, ?_, h3⟩
  rw [h2]
  decide

/-! ### Claim C5 -/

/-- Claim C5: every offer computed by a successful underwriting turn has
rate 14.0 and tenure 48 months when the approved amount is at least 300000
and rate 16.0 with tenure 36 otherwise, and its processing fee is
max(1999, floor of one percent of approved); in particular approved 50000
gives fee 1999, approved 400000 gives fee 4000, approved 300000 gives rate
14.0 with tenure 48, and approved 299999 gives rate 16.0 with tenure 36. -/
theorem C5_rate_tenure_fee :
    (∀ today (s : Session) t income, s.stage = Stage.underwriting →
        parse_int (pyStrip (String.data t)) = some income → income ≠ 0 →
        (resultSession (chat_send today s t)).offer
          = computeOffer income s.requested_amount) ∧
    (∀ income req,
        (300000 ≤ (computeOffer income req).approved.getD 0 →
          (computeOffer income req).rate = some 14 ∧
          (computeOffer income req).tenure_months = some 48) ∧
        ((computeOffer income req).approved.getD 0 < 300000 →
          (computeOffer income req).rate = some 16 ∧
          (computeOffer income req).tenure_months = some 36) ∧
        (computeOffer income req).processing_fee
          = some (max 1999 ((computeOffer income req).approved.getD 0 / 100))) ∧
    (computeOffer 2500 none).approved = some 50000 ∧
    (computeOffer 2500 none).processing_fee = some 1999 ∧
    (computeOffer 20000 none).approved = some 400000 ∧
    (computeOffer 20000 none).processing_fee = some 4000 ∧
    (computeOffer 15000 none).approved = some 300000 ∧
    (computeOffer 15000 none).rate = some 14 ∧
    (computeOffer 15000 none).tenure_months = some 48 ∧
    (computeOffer 25000 (some 299999)).approved = some 299999 ∧
    (computeOffer 25000 (some 299999)).rate = some 16 ∧
    (computeOffer 25000 (some 299999)).tenure_months = some 36 := by
  refine ⟨?_, ?_, by decide, by decide, by decide, by decide, by decide, by decide,
    by decide, by decide, by decide, by decide⟩
  · intro today s t income hs hp hne
    obtain ⟨reply, heq⟩ := chat_send_underwriting_shape today s t income hs hp hne
    rw [heq]
    rfl
  · intro income req
    refine ⟨?_, ?_, rfl⟩
    · intro h
      simp only [computeOffer, Option.getD_some] at h ⊢
      constructor <;> rw [if_pos h]
    · intro h
      simp only [computeOffer, Option.getD_some] at h ⊢
      constructor <;> rw [if_neg (by omega)]

/-- Claim C5 witness: concrete instantiations of the universally quantified
parts, at income 30000 for the chat link and at the threshold offers. -/
theorem C5_rate_tenure_fee_witness :
    (resultSession (chat_send "2024-01-01"
        ⟨Stage.underwriting, none, none, none, none, Offer.emptyO, []⟩ "30000")).offer
      = computeOffer 30000 none ∧
    (computeOffer 15000 none).rate = some 14 ∧
    (computeOffer 25000 (some 299999)).rate = some 16 := by
  refine ⟨C5_rate_tenure_fee.1 "2024-01-01"
      ⟨Stage.underwriting, none, none, none, none, Offer.emptyO, []⟩ "30000" 30000
      rfl (by decide) (by decide), ?_, ?_⟩
  · exact ((C5_rate_tenure_fee.2.1 15000 none).1 (by decide)).1
  · exact ((C5_rate_tenure_fee.2.1 25000 (some 299999)).2.1 (by decide)).1

/-! ### Claim C6 -/

/-- Claim C6: in stage sanction, a text whose lowercasing contains one of
the five confirmation keywords generates the offer letter, stores it on the
letter field of the offer, and advances the stage to complete; any other
text leaves the session unchanged apart from the two appended messages and
replies with the confirmation prompt. -/
theorem C6_sanction_confirmation :
    ∀ today (s : Session) t, s.stage = Stage.sanction →
      (sanctionKeywordHit (pyStrip (String.data t)) = true →
        chat_send today s t = ChatResult.ok
          { s with
              offer := { s.offer with
                letter := some (generate_offer_letter today
                  (s.customer_name.getD "Customer") s.offer) },
              stage := Stage.complete,
              messages := s.messages ++ [⟨"user", t⟩, ⟨"assistant", replyLetterDone⟩] }
          replyLetterDone) ∧
      (sanctionKeywordHit (pyStrip (String.data t)) = false →
        chat_send today s t = ChatResult.ok
          { s with messages := s.messages ++ [⟨"user", t⟩, ⟨"assistant", replySayYes⟩] }
          replySayYes) := by
  intro today s t hs
  obtain ⟨st, cn, mi, ra, ky, off, ms⟩ := s
  simp only at hs
  subst hs
  constructor
  · intro hhit
    simp [chat_send, hhit, finish]
  · intro hmiss
    simp [chat_send, hmiss, finish]

/-- Claim C6 witness: a concrete sanction session where yes generates and
stores the letter and a concrete refusal that stays in sanction. -/
theorem C6_sanction_confirmation_witness :
    chat_send "2024-01-01"
        ⟨Stage.sanction, some "Jane", some 30000, none, none, computeOffer 30000 none, []⟩
        "yes"
      = ChatResult.ok
          ⟨Stage.complete, some "Jane", some 30000, none, none,
           { computeOffer 30000 none with
             letter := some (generate_offer_letter "2024-01-01" "Jane"
               (computeOffer 30000 none)) },
           [⟨"user", "yes"⟩, ⟨"assistant", replyLetterDone⟩]⟩ replyLetterDone ∧
    chat_send "2024-01-01"
        ⟨Stage.sanction, some "Jane", some 30000, none, none, computeOffer 30000 none, []⟩
        "not now"
      = ChatResult.ok
          ⟨Stage.sanction, some "Jane", some 30000, none, none, computeOffer 30000 none,
           [⟨"user", "not now"⟩, ⟨"assistant", replySayYes⟩]⟩ replySayYes := by
  constructor
  · have h := (C6_sanction_confirmation "2024-01-01"
      ⟨Stage.sanction, some "Jane", some 30000, none, none, computeOffer 30000 none, []⟩
      "yes" rfl).1 (by decide)
    simpa using h
  · have h := (C6_sanction_confirmation "2024-01-01"
      ⟨Stage.sanction, some "Jane", some 30000, none, none, computeOffer 30000 none, []⟩
      "not now" rfl).2 (by decide)
    simpa using h

/-! ### Claim C7 -/

/-- An append is nonempty when its left part is. -/
theorem ne_nil_left {α : Type} (l1 l2 : List α) (h : l1 ≠ []) : l1 ++ l2 ≠ [] :=
  fun hc => h (List.append_eq_nil.mp hc).1

set_option maxRecDepth 40000 in
set_option maxHeartbeats 1600000 in
/-- Claim C7: the letter generator returns the literal sentinel on an empty
offer; on a nonempty offer its output contains the customer name, the
approved amount and the processing fee rendered with thousands separators,
the interest rate, the tenure, and the no-signature-required disclaimer;
and for a fixed current date the output is a deterministic function of the
name and the offer. -/
theorem C7_offer_letter_format :
    (∀ today name (o : Offer), Offer.isEmptyO o = true →
        generate_offer_letter today name o = "No offer available.") ∧
    (∀ today name (o : Offer), Offer.isEmptyO o = false →
        containsSub (generate_offer_letter today name o).data (String.data name) = true ∧
        containsSub (generate_offer_letter today name o).data
          (String.data ("₹" ++ numComma (o.approved.getD 0))) = true ∧
        containsSub (generate_offer_letter today name o).data
          (String.data (showRate o.rate ++ "% p.a.")) = true ∧
        containsSub (generate_offer_letter today name o).data
          (String.data (toString (o.tenure_months.getD 0) ++ " months")) = true ∧
        containsSub (generate_offer_letter today name o).data
          (String.data ("₹" ++ numComma (o.processing_fee.getD 0))) = true ∧
        containsSub (generate_offer_letter today name o).data
          (String.data "This is a system-generated letter and does not require a signature.")
          = true) ∧
    (∀ today name (o1 o2 : Offer), o1 = o2 →
        generate_offer_letter today name o1 = generate_offer_letter today name o2) := by
  refine ⟨?_, ?_, fun today name o1 o2 h => by rw [h]⟩
  · intro today name o hemp
    simp [generate_offer_letter, hemp]
  · intro today name o hemp
    have hA7 : String.data "Approved Amount: ₹"
        = String.data "Approved Amount: " ++ String.data "₹" := by decide
    have hA10 : String.data "% p.a.\n" = String.data "% p.a." ++ String.data "\n" := by
      decide
    have hA12 : String.data " months\n" = String.data " months" ++ String.data "\n" := by
      decide
    have hA13 : String.data "Processing Fee: ₹"
        = String.data "Processing Fee: " ++ String.data "₹" := by decide
    have hA15 : String.data "This is a system-generated letter and does not require a signature.\n"
        = String.data "This is a system-generated letter and does not require a signature."
          ++ String.data "\n" := by decide
    refine ⟨?_, ?_, ?_, ?_, ?_, ?_⟩
    · have hco := containsSub_of_append (String.data name)
        (String.data "LoanLens AI – Sanction Letter\n\n" ++ String.data "Date: "
          ++ String.data today ++ String.data "\n" ++ String.data "To, ")
        (String.data "\n\n"
          ++ String.data "We are pleased to sanction a personal loan with the following terms:\n"
          ++ String.data "Approved Amount: ₹" ++ (numComma (o.approved.getD 0)).data
          ++ String.data "\n" ++ String.data "Interest Rate: " ++ (showRate o.rate).data
          ++ String.data "% p.a.\n" ++ String.data "Tenure: "
          ++ (toString (o.tenure_months.getD 0) : String).data ++ String.data " months\n"
          ++ String.data "Processing Fee: ₹" ++ (numComma (o.processing_fee.getD 0)).data
          ++ String.data "\n\n"
          ++ String.data "This is a system-generated letter and does not require a signature.\n")
        (by
          repeat apply ne_nil_left
          decide)
      simpa [generate_offer_letter, hemp, String.data_append, List.append_assoc] using hco
    · have hco := containsSub_of_append
        (String.data "₹" ++ (numComma (o.approved.getD 0)).data)
        (String.data "LoanLens AI – Sanction Letter\n\n" ++ String.data "Date: "
          ++ String.data today ++ String.data "\n" ++ String.data "To, "
          ++ String.data name ++ String.data "\n\n"
          ++ String.data "We are pleased to sanction a personal loan with the following terms:\n"
          ++ String.data "Approved Amount: ")
        (String.data "\n" ++ String.data "Interest Rate: " ++ (showRate o.rate).data
          ++ String.data "% p.a.\n" ++ String.data "Tenure: "
          ++ (toString (o.tenure_months.getD 0) : String).data ++ String.data " months\n"
          ++ String.data "Processing Fee: ₹" ++ (numComma (o.processing_fee.getD 0)).data
          ++ String.data "\n\n"
          ++ String.data "This is a system-generated letter and does not require a signature.\n")
        (by
          repeat apply ne_nil_left
          decide)
      simpa [generate_offer_letter, hemp, String.data_append, List.append_assoc, hA7]
        using hco
    · have hco := containsSub_of_append
        ((showRate o.rate).data ++ String.data "% p.a.")
        (String.data "LoanLens AI – Sanction Letter\n\n" ++ String.data "Date: "
          ++ String.data today ++ String.data "\n" ++ String.data "To, "
          ++ String.data name ++ String.data "\n\n"
          ++ String.data "We are pleased to sanction a personal loan with the following terms:\n"
          ++ String.data "Approved Amount: ₹" ++ (numComma (o.approved.getD 0)).data
          ++ String.data "\n" ++ String.data "Interest Rate: ")
        (String.data "\n" ++ String.data "Tenure: "
          ++ (toString (o.tenure_months.getD 0) : String).data ++ String.data " months\n"
          ++ String.data "Processing Fee: ₹" ++ (numComma (o.processing_fee.getD 0)).data
          ++ String.data "\n\n"
          ++ String.data "This is a system-generated letter and does not require a signature.\n")
        (by
          repeat apply ne_nil_left
          decide)
      simpa [generate_offer_letter, hemp, String.data_append, List.append_assoc, hA10]
        using hco
    · have hco := containsSub_of_append
        ((toString (o.tenure_months.getD 0) : String).data ++ String.data " months")
        (String.data "LoanLens AI – Sanction Letter\n\n" ++ String.data "Date: "
          ++ String.data today ++ String.data "\n" ++ String.data "To, "
          ++ String.data name ++ String.data "\n\n"
          ++ String.data "We are pleased to sanction a personal loan with the following terms:\n"
          ++ String.data "Approved Amount: ₹" ++ (numComma (o.approved.getD 0)).data
          ++ String.data "\n" ++ String.data "Interest Rate: " ++ (showRate o.rate).data
          ++ String.data "% p.a.\n" ++ String.data "Tenure: ")
        (String.data "\n"
          ++ String.data "Processing Fee: ₹" ++ (numComma (o.processing_fee.getD 0)).data
          ++ String.data "\n\n"
          ++ String.data "This is a system-generated letter and does not require a signature.\n")
        (by
          repeat apply ne_nil_left
          decide)
      simpa [generate_offer_letter, hemp, String.data_append, List.append_assoc, hA12]
        using hco
    · have hco := containsSub_of_append
        (String.data "₹" ++ (numComma (o.processing_fee.getD 0)).data)
        (String.data "LoanLens AI – Sanction Letter\n\n" ++ String.data "Date: "
          ++ String.data today ++ String.data "\n" ++ String.data "To, "
          ++ String.data name ++ String.data "\n\n"
          ++ String.data "We are pleased to sanction a personal loan with the following terms:\n"
          ++ String.data "Approved Amount: ₹" ++ (numComma (o.approved.getD 0)).data
          ++ String.data "\n" ++ String.data "Interest Rate: " ++ (showRate o.rate).data
          ++ String.data "% p.a.\n" ++ String.data "Tenure: "
          ++ (toString (o.tenure_months.getD 0) : String).data ++ String.data " months\n"
          ++ String.data "Processing Fee: ")
        (String.data "\n\n"
          ++ String.data "This is a system-generated letter and does not require a signature.\n")
        (by
          repeat apply ne_nil_left
          decide)
      simpa [generate_offer_letter, hemp, String.data_append, List.append_assoc, hA13]
        using hco
    · have hco := containsSub_of_append
        (String.data "This is a system-generated letter and does not require a signature.")
        (String.data "LoanLens AI – Sanction Letter\n\n" ++ String.data "Date: "
          ++ String.data today ++ String.data "\n" ++ String.data "To, "
          ++ String.data name ++ String.data "\n\n"
          ++ String.data "We are pleased to sanction a personal loan with the following terms:\n"
          ++ String.data "Approved Amount: ₹" ++ (numComma (o.approved.getD 0)).data
          ++ String.data "\n" ++ String.data "Interest Rate: " ++ (showRate o.rate).data
          ++ String.data "% p.a.\n" ++ String.data "Tenure: "
          ++ (toString (o.tenure_months.getD 0) : String).data ++ String.data " months\n"
          ++ String.data "Processing Fee: ₹" ++ (numComma (o.processing_fee.getD 0)).data
          ++ String.data "\n\n")
        (String.data "\n")
        (by
          repeat apply ne_nil_left
          decide)
      simpa [generate_offer_letter, hemp, String.data_append, List.append_assoc, hA15]
        using hco

/-- Claim C7 witness: concrete instantiations of all three parts at the
offer computed for income 30000. -/
theorem C7_offer_letter_format_witness :
    generate_offer_letter "2024-01-01" "Jane" Offer.emptyO = "No offer available." ∧
    containsSub (generate_offer_letter "2024-01-01" "Jane" (computeOffer 30000 none)).data
      (String.data "Jane") = true ∧
    containsSub (generate_offer_letter "2024-01-01" "Jane" (computeOffer 30000 none)).data
      (String.data "This is a system-generated letter and does not require a signature.")
      = true ∧
    generate_offer_letter "2024-01-01" "Jane" Offer.emptyO
      = generate_offer_letter "2024-01-01" "Jane" Offer.emptyO := by
  refine ⟨C7_offer_letter_format.1 "2024-01-01" "Jane" Offer.emptyO (by decide), ?_, ?_,
    C7_offer_letter_format.2.2 "2024-01-01" "Jane" Offer.emptyO Offer.emptyO rfl⟩
  · exact (C7_offer_letter_format.2.1 "2024-01-01" "Jane" (computeOffer 30000 none)
      (by decide)).1
  · exact (C7_offer_letter_format.2.1 "2024-01-01" "Jane" (computeOffer 30000 none)
      (by decide)).2.2.2.2.2

/-! ### Claim C8 -/

/-- Claim C8 counterexample: on the intro-stage input I AM BOB the
lowercased text contains the keyword i am but the original text does not
contain it case-sensitively, so the turn raises after pushing only the user
message: no assistant-message record is appended, refuting the claim that
every turn appends exactly one user and one assistant record. -/
theorem C8_raise_skips_reply_counterexample :
    resultOk (chat_send "2024-01-01" Session.fresh "I AM BOB") = false ∧
    (resultSession (chat_send "2024-01-01" Session.fresh "I AM BOB")).messages
      = [⟨"user", "I AM BOB"⟩] := by
  decide

/-- Claim C8 amended: a chat turn that completes appends exactly one user
record and one assistant record in that order; a turn that raises appends
only the user record; the KYC upload appends exactly one assistant record;
sanction generation appends nothing; hence messages is append-only across
all operations. -/
theorem C8_messages_append_only_amended :
    (∀ today (s : Session) t s1 r, chat_send today s t = ChatResult.ok s1 r →
        s1.messages = s.messages ++ [⟨"user", t⟩, ⟨"assistant", r⟩]) ∧
    (∀ today (s : Session) t s1, chat_send today s t = ChatResult.raised s1 →
        s1.messages = s.messages ++ [⟨"user", t⟩]) ∧
    (∀ (s : Session) p a, (verification_upload s p a).1.messages
        = s.messages ++ [⟨"assistant", replyKycVerified⟩]) ∧
    (∀ today (s : Session), (generate_sanction today s).1.messages = s.messages) := by
  refine ⟨?_, ?_, fun s p a => rfl, fun today s => rfl⟩
  · intro today s t s1 r h
    obtain ⟨st, cn, mi, ra, ky, off, ms⟩ := s
    cases st <;>
      (simp only [chat_send] at h
       repeat' split at h) <;>
    first
      | exact ChatResult.noConfusion h
      | (simp only [finish, ChatResult.ok.injEq] at h
         obtain ⟨h1, h2⟩ := h
         subst h1
         subst h2
         simp)
  · intro today s t s1 h
    obtain ⟨st, cn, mi, ra, ky, off, ms⟩ := s
    cases st <;>
      (simp only [chat_send] at h
       repeat' split at h) <;>
    first
      | exact ChatResult.noConfusion h
      | (simp only [finish, ChatResult.raised.injEq] at h
         subst h
         simp)

/-- Claim C8 amended witness: concrete instantiations, one completing turn,
one raising turn, one upload, one sanction generation. -/
theorem C8_messages_append_only_amended_witness :
    (resultSession (chat_send "2024-01-01" Session.fresh "hello")).messages
      = [⟨"user", "hello"⟩, ⟨"assistant", replyAskAgain⟩] ∧
    (resultSession (chat_send "2024-01-01" Session.fresh "I AM BOB")).messages
      = [⟨"user", "I AM BOB"⟩] ∧
    (verification_upload Session.fresh "p.png" "a.png").1.messages
      = [⟨"assistant", replyKycVerified⟩] ∧
    (generate_sanction "2024-01-01" Session.fresh).1.messages = [] := by
  refine ⟨?_, ?_, ?_, ?_⟩
  · have h := C8_messages_append_only_amended.1 "2024-01-01" Session.fresh "hello"
      (resultSession (chat_send "2024-01-01" Session.fresh "hello"))
      replyAskAgain (by decide)
    simpa using h
  · have h := C8_messages_append_only_amended.2.1 "2024-01-01" Session.fresh "I AM BOB"
      (resultSession (chat_send "2024-01-01" Session.fresh "I AM BOB")) (by decide)
    simpa using h
  · exact C8_messages_append_only_amended.2.2.1 Session.fresh "p.png" "a.png"
  · exact C8_messages_append_only_amended.2.2.2 "2024-01-01" Session.fresh

/-! ### Claim C9 -/

/-- Claim C9 counterexample: the claim says that in stage complete any
event changes nothing but messages; a KYC-upload event on a complete
session rewrites the kyc record and moves the stage back to underwriting,
so the claim as stated is false. -/
theorem C9_complete_upload_counterexample :
    (verification_upload
        ⟨Stage.complete, some "Jane", some 30000, some 400000, none, Offer.emptyO, []⟩
        "pan2.png" "aadhaar2.png").1.stage = Stage.underwriting ∧
    (verification_upload
        ⟨Stage.complete, some "Jane", some 30000, some 400000, none, Offer.emptyO, []⟩
        "pan2.png" "aadhaar2.png").1.kyc = some ⟨"pan2.png", "aadhaar2.png", true⟩ ∧
    Stage.underwriting ≠ Stage.complete := by
  decide

/-- Claim C9 amended: restricted to text events the claim holds: a text
event in stage verification changes nothing except the two appended message
records and replies with the KYC reminder, and a text event in stage
complete changes nothing except the two appended message records and
replies with the generic closing line.  Upload events, however, are applied
in any stage and do change other fields (see the counterexample). -/
theorem C9_text_event_frame_amended :
    (∀ today (s : Session) t, s.stage = Stage.verification →
        chat_send today s t = ChatResult.ok
          { s with messages := s.messages ++ [⟨"user", t⟩, ⟨"assistant", replyAwaitKyc⟩] }
          replyAwaitKyc) ∧
    (∀ today (s : Session) t, s.stage = Stage.complete →
        chat_send today s t = ChatResult.ok
          { s with messages := s.messages ++ [⟨"user", t⟩, ⟨"assistant", replyComplete⟩] }
          replyComplete) := by
  constructor
  · intro today s t hs
    obtain ⟨st, cn, mi, ra, ky, off, ms⟩ := s
    simp only at hs
    subst hs
    simp [chat_send, finish]
  · intro today s t hs
    obtain ⟨st, cn, mi, ra, ky, off, ms⟩ := s
    simp only at hs
    subst hs
    simp [chat_send, finish]

/-- Claim C9 amended witness: concrete verification-stage and
complete-stage text turns. -/
theorem C9_text_event_frame_amended_witness :
    chat_send "2024-01-01"
        ⟨Stage.verification, some "Jane", none, some 500000, none, Offer.emptyO, []⟩ "hello"
      = ChatResult.ok
          ⟨Stage.verification, some "Jane", none, some 500000, none, Offer.emptyO,
           [⟨"user", "hello"⟩, ⟨"assistant", replyAwaitKyc⟩]⟩ replyAwaitKyc ∧
    chat_send "2024-01-01"
        ⟨Stage.complete, some "Jane", some 30000, some 500000, none, Offer.emptyO, []⟩ "thanks"
      = ChatResult.ok
          ⟨Stage.complete, some "Jane", some 30000, some 500000, none, Offer.emptyO,
           [⟨"user", "thanks"⟩, ⟨"assistant", replyComplete⟩]⟩ replyComplete := by
  constructor
  · have h := C9_text_event_frame_amended.1 "2024-01-01"
      ⟨Stage.verification, some "Jane", none, some 500000, none, Offer.emptyO, []⟩ "hello" rfl
    simpa using h
  · have h := C9_text_event_frame_amended.2 "2024-01-01"
      ⟨Stage.complete, some "Jane", some 30000, some 500000, none, Offer.emptyO, []⟩ "thanks" rfl
    simpa using h

end LoanLens
